import Mathlib

/-!
Verification development for Historical-Mind-Lab.

The repository ships the frontend (Next.js hooks and types) under
`historical-mind-frontend/`, together with documentation of the backend
(`API.md`, phase summaries, roadmap).  The backend core — Session,
Session Registry and Event Broadcaster (`src/simulation/engine.py`,
`src/api/server.py`, `src/api/websocket.py`) — is documented but its
source is not part of this tree, so those components are modelled from
the specification; each such definition carries a doc comment starting
with `Modelled from the spec:`.  The frontend definitions are direct
translations of the TypeScript in
`historical-mind-frontend/hooks/useWebSocket.ts`,
`historical-mind-frontend/hooks/useSimulation.ts` and
`historical-mind-frontend/types/simulation.ts`.
-/

/-- Modelled from the spec: session status state machine,
`created → running → {completed, failed}` (§4.1). -/
inductive SessionStatus
  | created
  | running
  | completed
  | failed
deriving DecidableEq

/-- Modelled from the spec: a place name with coordinates (§3, Location). -/
structure GeoPoint where
  placeName : String
  lat : Int
  lon : Int
deriving DecidableEq

/-- Modelled from the spec: immutable agent profile (§3). -/
structure AgentProfile where
  name : String
  birthYear : Nat
  personality : String
  coreValues : List String
deriving DecidableEq

/-- Modelled from the spec: mutable psychological state; stress is kept in
[0,100] by clamping on every write (§3, PsychState). -/
structure PsychState where
  stress : Int
  focus : String
  mbti : String
deriving DecidableEq

/-- Modelled from the spec: one snapshot of a session's state (§3,
SimulationFrame).  The simulated in-world clock is counted in hours. -/
structure SimulationFrame where
  turn : Nat
  timestamp : Nat
  location : GeoPoint
  psychState : PsychState
  inventory : List String
  recentEvents : List String
deriving DecidableEq

/-- Modelled from the spec: one append-only decision-history entry (§3,
Decision). -/
structure Decision where
  turn : Nat
  timestamp : Nat
  location : String
  eventDescription : String
  reasoning : String
  action : String
  stressLevel : Int
deriving DecidableEq

/-- Modelled from the spec: a session (§3).  The subscriber set lives in the
Event Broadcaster model below, keyed by the session identifier. -/
structure Session where
  id : String
  status : SessionStatus
  profile : AgentProfile
  currentFrame : SimulationFrame
  history : List Decision
  createdAt : Nat
deriving DecidableEq

/-- Modelled from the spec: route facts returned by the Geography Provider
(`route(from, to) -> {distance, direction, duration}`, §1). -/
structure RouteInfo where
  distanceKm : Int
  direction : String
  durationHours : Nat
deriving DecidableEq

/-- Modelled from the spec: the Decision Provider's output,
`{reasoning, action}` (§4.1 step 3). -/
structure DecisionOutput where
  reasoning : String
  action : String
deriving DecidableEq

/-- Modelled from the spec: the context assembled for the Decision Provider
(§4.1 step 2). -/
structure DecisionContext where
  location : GeoPoint
  inventory : List String
  stress : Int
  eventDescription : String
  candidateRoutes : List (String × RouteInfo)
deriving DecidableEq

/-- Modelled from the spec: the external collaborators (§2) — Geography
Provider (`resolve`, `route`, `nearby`), Knowledge Provider
(`historicalEvent`, `danger`) and Decision Provider (`decide`).  They are
parameters of the model, so theorems quantify over all provider behaviour,
adversarial behaviour included. -/
structure Providers where
  resolve : String → Option GeoPoint
  route : GeoPoint → GeoPoint → RouteInfo
  nearby : GeoPoint → List (String × RouteInfo)
  historicalEvent : GeoPoint → Nat → Option String
  danger : GeoPoint → Int
  decide : DecisionContext → DecisionOutput

/-- Modelled from the spec: the "tactical" stress threshold (50, §4.1
step 2). -/
def tacticalThreshold : Int := 50

/-- Modelled from the spec: the "safe" danger threshold (40, §4.1 step 4). -/
def safeThreshold : Int := 40

/-- Modelled from the spec: the tunable stress decrease applied on reaching
safety (§4.1 step 4; the exact delta is a policy constant). -/
def safetyStressDelta : Int := 30

/-- Modelled from the spec: the small fixed clock increment of a non-move
turn (§4.1 step 5), in hours. -/
def nonMoveClockIncrement : Nat := 1

/-- Modelled from the spec: clamp a stress value into [0,100] (§3,
PsychState invariant). -/
def clampStress (x : Int) : Int := max 0 (min 100 x)

/-- Strip the eight characters of the `move_to:` marker from a character
list, when present. -/
def dropMoveMarker : List Char → Option (List Char)
  | 'm' :: 'o' :: 'v' :: 'e' :: '_' :: 't' :: 'o' :: ':' :: rest =>
    some rest
  | _ => none

/-- Modelled from the spec: the action micro-grammar — `"move_to:<place>"`
is a move (the target is everything after the marker), any other string is
a non-movement action (§4.1 step 3). -/
def parseMoveTarget (action : String) : Option String :=
  match dropMoveMarker action.data with
  | some rest => some (String.mk rest)
  | none => none

/-- Modelled from the spec: the result recorded for a turn's action; a move
to an unresolvable place records failure (§4.1 step 4). -/
structure ActionResult where
  action : String
  success : Bool
deriving DecidableEq

/-- Insert one candidate route into a distance-sorted list. -/
def insertRoute (r : String × RouteInfo) :
    List (String × RouteInfo) → List (String × RouteInfo)
  | [] => [r]
  | x :: xs =>
    if r.2.distanceKm ≤ x.2.distanceKm then r :: x :: xs
    else x :: insertRoute r xs

/-- Modelled from the spec: candidate routes ranked by distance ascending
(§4.1 step 2). -/
def rankRoutes : List (String × RouteInfo) → List (String × RouteInfo)
  | [] => []
  | x :: xs => insertRoute x (rankRoutes xs)

/-- Modelled from the spec: §4.1 step 1 — the turn's triggering historical
event, or an empty description when the Knowledge Provider finds none. -/
def eventDescFor (p : Providers) (frame : SimulationFrame) : String :=
  (p.historicalEvent frame.location frame.timestamp).getD ""

/-- Modelled from the spec: §4.1 step 2 — assemble the decision context;
candidate routes are included only when stress is at or above the tactical
threshold. -/
def buildContext (p : Providers) (frame : SimulationFrame)
    (eventDesc : String) : DecisionContext :=
  { location := frame.location
    inventory := frame.inventory
    stress := frame.psychState.stress
    eventDescription := eventDesc
    candidateRoutes :=
      if tacticalThreshold ≤ frame.psychState.stress then
        rankRoutes (p.nearby frame.location)
      else [] }

/-- Modelled from the spec: §4.1 steps 4–5 — execute the decided action.
Returns the new location, the new clock value, the new (clamped) stress and
the recorded action result.  A move to an unresolvable place leaves the
location unchanged and records failure; a successful move advances the
clock by the route duration and decreases stress toward the floor when the
destination is safe; a non-move advances the clock by a small fixed
increment. -/
def applyAction (p : Providers) (frame : SimulationFrame)
    (d : DecisionOutput) : GeoPoint × Nat × Int × ActionResult :=
  match parseMoveTarget d.action with
  | some target =>
    match p.resolve target with
    | some dest =>
      let r := p.route frame.location dest
      let dangerLevel := p.danger dest
      let newStress :=
        if dangerLevel < safeThreshold then
          clampStress (frame.psychState.stress - safetyStressDelta)
        else clampStress frame.psychState.stress
      (dest, frame.timestamp + r.durationHours, newStress,
        ⟨d.action, true⟩)
    | none =>
      (frame.location, frame.timestamp + nonMoveClockIncrement,
        clampStress frame.psychState.stress, ⟨d.action, false⟩)
  | none =>
    (frame.location, frame.timestamp + nonMoveClockIncrement,
      clampStress frame.psychState.stress, ⟨d.action, true⟩)

/-- Modelled from the spec: §4.1 step 7 — the termination check.  The
session completes when the new location's danger level is below the safe
threshold (at least one turn having executed), or when the configured
maximum turn count is reached; otherwise it keeps running. -/
def nextStatus (p : Providers) (maxTurns : Nat) (newLoc : GeoPoint)
    (newTurn : Nat) : SessionStatus :=
  if p.danger newLoc < safeThreshold ∧ 1 ≤ newTurn then
    SessionStatus.completed
  else if maxTurns ≤ newTurn then SessionStatus.completed
  else SessionStatus.running

/-- Modelled from the spec: §4.1 one-turn transition (steps 1–7).
`maxTurns` is the configured maximum turn count used by the termination
check of step 7. -/
def executeTurn (p : Providers) (maxTurns : Nat) (s : Session) :
    Session × ActionResult :=
  let frame := s.currentFrame
  let eventDesc := eventDescFor p frame
  let d := p.decide (buildContext p frame eventDesc)
  let acted := applyAction p frame d
  let newLoc := acted.1
  let newTime := acted.2.1
  let newStress := acted.2.2.1
  let result := acted.2.2.2
  let newTurn := frame.turn + 1
  let newStatus := nextStatus p maxTurns newLoc newTurn
  let newFrame : SimulationFrame :=
    { turn := newTurn
      timestamp := newTime
      location := newLoc
      psychState :=
        { stress := newStress
          focus := frame.psychState.focus
          mbti := frame.psychState.mbti }
      inventory := frame.inventory
      recentEvents :=
        if eventDesc = "" then frame.recentEvents
        else eventDesc :: frame.recentEvents }
  let decision : Decision :=
    { turn := newTurn
      timestamp := frame.timestamp
      location := frame.location.placeName
      eventDescription := eventDesc
      reasoning := d.reasoning
      action := d.action
      stressLevel := frame.psychState.stress }
  ({ s with
      status := newStatus
      currentFrame := newFrame
      history := s.history ++ [decision] }, result)

/-- Modelled from the spec: the error taxonomy (§7). -/
inductive ApiError
  | invalidArgument
  | unknownLocation
  | notFound
  | invalidState
  | providerFailure
  | internal
deriving DecidableEq

/-- Modelled from the spec: the Registry's session map, keyed by session
identifier (§4.2). -/
def Registry := List (String × Session)

/-- Modelled from the spec: the validating part of `create` (§4.2) —
reject stress outside [0,100] with `InvalidArgument`, resolve the starting
location via the Geography Provider (`UnknownLocation` on failure), and
construct a Session in `created` state with a turn-0 frame and empty
decision history. -/
def createSession (p : Providers) (id : String) (profile : AgentProfile)
    (startingLocation : String) (startingStress : Int)
    (inventory : List String) (now : Nat) : Except ApiError Session :=
  if startingStress < 0 ∨ 100 < startingStress then
    Except.error ApiError.invalidArgument
  else
    match p.resolve startingLocation with
    | none => Except.error ApiError.unknownLocation
    | some g =>
      Except.ok
        { id := id
          status := SessionStatus.created
          profile := profile
          currentFrame :=
            { turn := 0
              timestamp := now
              location := g
              psychState :=
                { stress := startingStress
                  focus := "Family Safety"
                  mbti := "ISTP" }
              inventory := inventory
              recentEvents := [] }
          history := []
          createdAt := now }

/-- Modelled from the spec: `create` at Registry level (§4.2, §7) — on
success the new session is stored in the map; on `InvalidArgument` or
`UnknownLocation` the error is returned synchronously and the map is
returned unchanged, so no partial session exists. -/
def registryCreate (p : Providers) (reg : Registry) (id : String)
    (profile : AgentProfile) (startingLocation : String)
    (startingStress : Int) (inventory : List String) (now : Nat) :
    Registry × Except ApiError Session :=
  match createSession p id profile startingLocation startingStress
      inventory now with
  | Except.error e => (reg, Except.error e)
  | Except.ok s => ((id, s) :: reg, Except.ok s)

/-- Replace the stored session under `id`. -/
def registryUpdate (reg : Registry) (id : String) (s' : Session) :
    Registry :=
  reg.map fun kv => if kv.1 = id then (id, s') else kv

/-- Modelled from the spec: `get` (§4.2) — read-only view, `NotFound` when
absent; still available after termination. -/
def registryGet (reg : Registry) (id : String) : Except ApiError Session :=
  match reg.lookup id with
  | none => Except.error ApiError.notFound
  | some s => Except.ok s

/-- Modelled from the spec: `history` (§4.2) — the full ordered decision
list; still available after termination. -/
def registryHistory (reg : Registry) (id : String) :
    Except ApiError (List Decision) :=
  match reg.lookup id with
  | none => Except.error ApiError.notFound
  | some s => Except.ok s.history

/-- Modelled from the spec: `step` (§4.2) — exactly one synchronous turn;
`NotFound` when absent, `InvalidState` against a terminal session (in which
case the map is unchanged and no turn executes). -/
def registryStep (p : Providers) (maxTurns : Nat) (reg : Registry)
    (id : String) : Registry × Except ApiError SimulationFrame :=
  match reg.lookup id with
  | none => (reg, Except.error ApiError.notFound)
  | some s =>
    match s.status with
    | SessionStatus.completed => (reg, Except.error ApiError.invalidState)
    | SessionStatus.failed => (reg, Except.error ApiError.invalidState)
    | _ =>
      let s' := (executeTurn p maxTurns s).1
      (registryUpdate reg id s', Except.ok s'.currentFrame)

/-- Modelled from the spec: the "run N turns" loop (§4.1) — repeat the
one-turn transition up to the fuel bound or until a terminal state is
reached, whichever comes first. -/
def runTurns (p : Providers) (maxTurns : Nat) : Nat → Session → Session
  | 0, s => s
  | Nat.succ n, s =>
    if s.status = SessionStatus.completed ∨
        s.status = SessionStatus.failed then s
    else runTurns p maxTurns n (executeTurn p maxTurns s).1

/-- Modelled from the spec: `start` (§4.2) — runs the turn loop up to
`maxTurns`; `NotFound` when absent, `InvalidState` against a terminal
session (map unchanged, no turn executes). -/
def registryStart (p : Providers) (reg : Registry) (id : String)
    (maxTurns : Nat) : Registry × Except ApiError Unit :=
  match reg.lookup id with
  | none => (reg, Except.error ApiError.notFound)
  | some s =>
    match s.status with
    | SessionStatus.completed => (reg, Except.error ApiError.invalidState)
    | SessionStatus.failed => (reg, Except.error ApiError.invalidState)
    | _ =>
      (registryUpdate reg id (runTurns p maxTurns maxTurns s),
        Except.ok ())

/-- Modelled from the spec: the session states reachable through the
Registry's operations — created by a successful `create`, then advanced one
turn at a time while not terminal (§4.1, §4.2). -/
inductive Reachable (p : Providers) : Session → Prop
  | created (id : String) (profile : AgentProfile)
      (startingLocation : String) (startingStress : Int)
      (inventory : List String) (now : Nat) (s : Session) :
      createSession p id profile startingLocation startingStress inventory
        now = Except.ok s →
      Reachable p s
  | stepped (maxTurns : Nat) (s : Session) :
      Reachable p s →
      s.status ≠ SessionStatus.completed →
      s.status ≠ SessionStatus.failed →
      Reachable p (executeTurn p maxTurns s).1

/-- Modelled from the spec: the Event Broadcaster's state (§4.3) — the
subscriber set for one session's channel, the count of events emitted so
far (events are numbered 1, 2, … in emission order) and the log of
deliveries `(observer, event number, payload)`. -/
structure BroadcasterState where
  subscribers : List String
  emitCount : Nat
  deliveries : List (String × Nat × String)
deriving DecidableEq

/-- Modelled from the spec: the operations on one session's channel (§4.3):
subscribe an observer, unsubscribe (disconnect) an observer, emit an
event. -/
inductive BroadcastOp
  | subscribe (obs : String)
  | unsubscribe (obs : String)
  | emit (payload : String)
deriving DecidableEq

/-- Modelled from the spec: one Broadcaster step (§4.3).  `emit` delivers
the event to exactly the currently subscribed observers — there is no
buffering, so an observer that subscribes later never receives it. -/
def applyBroadcastOp (st : BroadcasterState) :
    BroadcastOp → BroadcasterState
  | BroadcastOp.subscribe o =>
    { st with subscribers := o :: st.subscribers }
  | BroadcastOp.unsubscribe o =>
    { st with subscribers := st.subscribers.filter (· ≠ o) }
  | BroadcastOp.emit e =>
    { st with
        emitCount := st.emitCount + 1
        deliveries :=
          st.deliveries ++
            st.subscribers.map (fun o => (o, st.emitCount + 1, e)) }

/-- Run a sequence of Broadcaster operations. -/
def runBroadcast (st : BroadcasterState) (ops : List BroadcastOp) :
    BroadcasterState :=
  ops.foldl applyBroadcastOp st

/-- Modelled from the spec: a fresh channel — no subscribers, no events
emitted, nothing delivered. -/
def freshChannel : BroadcasterState :=
  { subscribers := [], emitCount := 0, deliveries := [] }

/-- Concrete place used by the witnesses: the starting location of the
documented scenario (README / §8). -/
def jiankang : GeoPoint :=
  { placeName := "Jiankang", lat := 32, lon := 118 }

/-- Concrete place used by the witnesses: the safe refuge of the
documented scenario. -/
def jiangling : GeoPoint :=
  { placeName := "Jiangling", lat := 30, lon := 112 }

/-- Concrete agent profile used by the witnesses. -/
def testProfile : AgentProfile :=
  { name := "Yan Zhitui"
    birthYear := 531
    personality := "ISTP"
    coreValues := ["Family Safety"] }

/-- Concrete providers realising the scenario of §8: the agent always
decides to move to Jiangling, which is resolvable and safe (danger 20);
everywhere else is dangerous (danger 90). -/
def scenarioProviders : Providers :=
  { resolve := fun name =>
      if name = "Jiankang" then some jiankang
      else if name = "Jiangling" then some jiangling
      else none
    route := fun _ _ =>
      { distanceKm := 654, direction := "WSW", durationHours := 107 }
    nearby := fun _ => []
    historicalEvent := fun _ _ => some "Taicheng has fallen"
    danger := fun g => if g.placeName = "Jiangling" then 20 else 90
    decide := fun _ =>
      { reasoning := "flee west", action := "move_to:Jiangling" } }

/-- Concrete adversarial providers: every place reports danger 90 (never
safe), and the Decision Provider always proposes a move to an unresolvable
place. -/
def unsafeProviders : Providers :=
  { resolve := fun name => if name = "Jiankang" then some jiankang else none
    route := fun _ _ =>
      { distanceKm := 100, direction := "N", durationHours := 10 }
    nearby := fun _ => []
    historicalEvent := fun _ _ => none
    danger := fun _ => 90
    decide := fun _ =>
      { reasoning := "try to flee", action := "move_to:Nowhere" } }

/-- The concrete session produced by a successful `create` at Jiankang
with starting stress 40 (both concrete provider sets resolve Jiankang the
same way). -/
def yanSession : Session :=
  { id := "sess-1"
    status := SessionStatus.created
    profile := testProfile
    currentFrame :=
      { turn := 0
        timestamp := 0
        location := jiankang
        psychState := { stress := 40, focus := "Family Safety", mbti := "ISTP" }
        inventory := []
        recentEvents := [] }
    history := []
    createdAt := 0 }

/-- A reachable running session: `yanSession` advanced one turn under the
adversarial providers with a generous turn budget — the move fails, the
location stays dangerous, so the session keeps running at turn 1. -/
def runningSession : Session :=
  (executeTurn unsafeProviders 5 yanSession).1

namespace Frontend

/-- From `types/simulation.ts`: `GeoPoint`. -/
structure GeoPoint where
  lat : Int
  lon : Int
  place_name : String
deriving DecidableEq

/-- From `types/simulation.ts`: `PsychState`. -/
structure PsychState where
  stress : Int
  focus : String
  mbti : String
deriving DecidableEq

/-- From `types/simulation.ts`: `AgentProfile`. -/
structure AgentProfile where
  name : String
  birth_year : Nat
  personality_type : String
  core_values : List String
  background : String
deriving DecidableEq

/-- From `types/simulation.ts`: `SimulationFrame`. -/
structure SimulationFrame where
  turn : Nat
  timestamp : String
  location : GeoPoint
  psych_state : PsychState
  inventory : List String
  recent_events : List String
deriving DecidableEq

/-- From `types/simulation.ts`: `SimulationState`. -/
structure SimulationState where
  simulation_id : String
  agent : AgentProfile
  current_frame : SimulationFrame
  status : String
  created_at : String
deriving DecidableEq

/-- From `types/simulation.ts`: `SimulationEvent` (the `data` payload is
kept as an uninterpreted string, as the hook never inspects it). -/
structure SimulationEvent where
  type : String
  timestamp : String
  data : String
deriving DecidableEq

/-- From `types/simulation.ts`: `Decision`. -/
structure Decision where
  turn : Nat
  timestamp : String
  location : String
  event_description : String
  agent_thought : String
  action : String
  stress_level : Int
deriving DecidableEq

/-- From `hooks/useWebSocket.ts` lines 23–30: the `onmessage` handler.
`parsed` is the outcome of `JSON.parse(event.data)` — `some data` when the
body parses, `none` when the parse throws (the handler only logs then).
On success the parsed event is appended (`setEvents((prev) => [...prev,
data])`); on failure the state updater is never called. -/
def onMessage (prev : List SimulationEvent)
    (parsed : Option SimulationEvent) : List SimulationEvent :=
  match parsed with
  | some data => prev ++ [data]
  | none => prev

/-- A thrown JavaScript value, as discriminated by the hooks' catch blocks
(`err instanceof Error ? err.message : 'Unknown error'`). -/
inductive JsError
  | errorObj (message : String)
  | nonError
deriving DecidableEq

/-- The message the hooks store for a caught value: an `Error`'s `message`,
or the literal `'Unknown error'` for a non-`Error` value. -/
def errMessage : JsError → String
  | JsError.errorObj m => m
  | JsError.nonError => "Unknown error"

/-- Outcome of one `fetch` + `response.json()` round trip as seen by a
hook's try block: `ok data` when `response.ok` held and the body parsed to
`data`; `notOk statusText` when `response.ok` was false; `thrown e` when
`fetch`/`json` itself threw. -/
inductive FetchOutcome (α : Type)
  | ok (data : α)
  | notOk (statusText : String)
  | thrown (e : JsError)

/-- From `hooks/useSimulation.ts` lines 13–17: the hook's state cells. -/
structure HookState where
  simulations : List SimulationState
  currentSimulation : Option SimulationState
  history : List Decision
  loading : Bool
  error : Option String
deriving DecidableEq

/-- From `hooks/useSimulation.ts` line 10. -/
def API_BASE_URL : String := "http://localhost:8000"

/-- From `hooks/useSimulation.ts` lines 19–43: `createSimulation`.
Sets `loading := true`, clears `error`, runs the try block; a non-ok
response throws `Error('Failed to create simulation: ' + statusText)`;
the catch block stores the message and rethrows; the finally block resets
`loading`. -/
def createSimulation (st : HookState)
    (outcome : FetchOutcome SimulationState) :
    HookState × Except JsError SimulationState :=
  let st := { st with loading := true, error := none }
  match outcome with
  | FetchOutcome.ok data =>
    ({ st with currentSimulation := some data, loading := false },
      Except.ok data)
  | FetchOutcome.notOk statusText =>
    let e := JsError.errorObj ("Failed to create simulation: " ++ statusText)
    ({ st with error := some (errMessage e), loading := false },
      Except.error e)
  | FetchOutcome.thrown e =>
    ({ st with error := some (errMessage e), loading := false },
      Except.error e)

/-- From `hooks/useSimulation.ts` lines 45–65: `getSimulationState`. -/
def getSimulationState (st : HookState)
    (outcome : FetchOutcome SimulationState) :
    HookState × Except JsError SimulationState :=
  let st := { st with loading := true, error := none }
  match outcome with
  | FetchOutcome.ok data =>
    ({ st with currentSimulation := some data, loading := false },
      Except.ok data)
  | FetchOutcome.notOk statusText =>
    let e := JsError.errorObj
      ("Failed to get simulation state: " ++ statusText)
    ({ st with error := some (errMessage e), loading := false },
      Except.error e)
  | FetchOutcome.thrown e =>
    ({ st with error := some (errMessage e), loading := false },
      Except.error e)

/-- From `hooks/useSimulation.ts` lines 67–90: `startSimulation`.  The
response body is consumed untyped (`const data = await response.json()`),
hence the type parameter; the hook state is not updated on success. -/
def startSimulation {α : Type} (st : HookState)
    (outcome : FetchOutcome α) : HookState × Except JsError α :=
  let st := { st with loading := true, error := none }
  match outcome with
  | FetchOutcome.ok data =>
    ({ st with loading := false }, Except.ok data)
  | FetchOutcome.notOk statusText =>
    let e := JsError.errorObj ("Failed to start simulation: " ++ statusText)
    ({ st with error := some (errMessage e), loading := false },
      Except.error e)
  | FetchOutcome.thrown e =>
    ({ st with error := some (errMessage e), loading := false },
      Except.error e)

/-- From `hooks/useSimulation.ts` lines 92–114: `stepSimulation`. -/
def stepSimulation (st : HookState)
    (outcome : FetchOutcome SimulationState) :
    HookState × Except JsError SimulationState :=
  let st := { st with loading := true, error := none }
  match outcome with
  | FetchOutcome.ok data =>
    ({ st with currentSimulation := some data, loading := false },
      Except.ok data)
  | FetchOutcome.notOk statusText =>
    let e := JsError.errorObj ("Failed to step simulation: " ++ statusText)
    ({ st with error := some (errMessage e), loading := false },
      Except.error e)
  | FetchOutcome.thrown e =>
    ({ st with error := some (errMessage e), loading := false },
      Except.error e)

/-- From `hooks/useSimulation.ts` lines 116–136: `getHistory`. -/
def getHistory (st : HookState)
    (outcome : FetchOutcome (List Decision)) :
    HookState × Except JsError (List Decision) :=
  let st := { st with loading := true, error := none }
  match outcome with
  | FetchOutcome.ok data =>
    ({ st with history := data, loading := false }, Except.ok data)
  | FetchOutcome.notOk statusText =>
    let e := JsError.errorObj ("Failed to get history: " ++ statusText)
    ({ st with error := some (errMessage e), loading := false },
      Except.error e)
  | FetchOutcome.thrown e =>
    ({ st with error := some (errMessage e), loading := false },
      Except.error e)

/-- From `hooks/useSimulation.ts` lines 138–158: `listSimulations`. -/
def listSimulations (st : HookState)
    (outcome : FetchOutcome (List SimulationState)) :
    HookState × Except JsError (List SimulationState) :=
  let st := { st with loading := true, error := none }
  match outcome with
  | FetchOutcome.ok data =>
    ({ st with simulations := data, loading := false }, Except.ok data)
  | FetchOutcome.notOk statusText =>
    let e := JsError.errorObj ("Failed to list simulations: " ++ statusText)
    ({ st with error := some (errMessage e), loading := false },
      Except.error e)
  | FetchOutcome.thrown e =>
    ({ st with error := some (errMessage e), loading := false },
      Except.error e)

/-- The HTTP request `startSimulation` issues (method, URL and the JSON
body's `max_turns` field). -/
structure StartRequest where
  method : String
  url : String
  max_turns : Nat
deriving DecidableEq

/-- From `hooks/useSimulation.ts` lines 67–75: the request construction of
`startSimulation`.  The TypeScript signature is
`(simulationId: string, maxTurns: number = 10)`; an omitted argument is
modelled as `none` and takes the default 10.  The body is
`JSON.stringify({ max_turns: maxTurns })`. -/
def startSimulationRequest (simulationId : String)
    (maxTurns : Option Nat) : StartRequest :=
  let m := maxTurns.getD 10
  { method := "POST"
    url := API_BASE_URL ++ "/simulations/" ++ simulationId ++ "/start"
    max_turns := m }

/-- From `hooks/useSimulation.ts` lines 13–17: the initial values of the
hook's state cells. -/
def initialHookState : HookState :=
  { simulations := []
    currentSimulation := none
    history := []
    loading := false
    error := none }

/-- The error-handling contract every operation of `useSimulation` obeys:
`loading` is false once the operation finishes, whatever the outcome; a
non-ok response stores `failMsg ++ statusText` in `error` and rethrows that
`Error`; a thrown value stores its message in `error` and rethrows it.  In
all failure cases the operation ends in `Except.error` — it never returns
a value. -/
def opContract {α : Type} (failMsg : String)
    (op : HookState → FetchOutcome α → HookState × Except JsError α) :
    Prop :=
  ∀ st outcome,
    ((op st outcome).1.loading = false) ∧
    (∀ stx, outcome = FetchOutcome.notOk stx →
      (op st outcome).1.error = some (failMsg ++ stx) ∧
      (op st outcome).2 =
        Except.error (JsError.errorObj (failMsg ++ stx))) ∧
    (∀ e, outcome = FetchOutcome.thrown e →
      (op st outcome).1.error = some (errMessage e) ∧
      (op st outcome).2 = Except.error e)

/-- A concrete pushed event, for the witnesses. -/
def sampleEvent : SimulationEvent :=
  { type := "turn_start", timestamp := "0548-12-15T14:00:00", data := "{}" }

end Frontend

theorem clampStress_nonneg (x : Int) : 0 ≤ clampStress x :=
  le_max_left 0 _

theorem clampStress_le (x : Int) : clampStress x ≤ 100 :=
  max_le (by norm_num) (min_le_left 100 x)

theorem applyAction_stress_bounds (p : Providers) (frame : SimulationFrame)
    (d : DecisionOutput) :
    0 ≤ (applyAction p frame d).2.2.1 ∧ (applyAction p frame d).2.2.1 ≤ 100 := by
  unfold applyAction
  cases hpt : parseMoveTarget d.action with
  | none =>
    simp only [hpt]
    exact ⟨clampStress_nonneg _, clampStress_le _⟩
  | some target =>
    cases hres : p.resolve target with
    | none =>
      simp only [hpt, hres]
      exact ⟨clampStress_nonneg _, clampStress_le _⟩
    | some dest =>
      simp only [hpt, hres]
      split
      · exact ⟨clampStress_nonneg _, clampStress_le _⟩
      · exact ⟨clampStress_nonneg _, clampStress_le _⟩

theorem executeTurn_turn (p : Providers) (maxTurns : Nat) (s : Session) :
    ((executeTurn p maxTurns s).1).currentFrame.turn =
      s.currentFrame.turn + 1 := rfl

theorem executeTurn_hist_len (p : Providers) (maxTurns : Nat) (s : Session) :
    ((executeTurn p maxTurns s).1).history.length = s.history.length + 1 := by
  show (s.history ++ [_]).length = _
  simp

theorem executeTurn_stress_eq (p : Providers) (maxTurns : Nat) (s : Session) :
    ((executeTurn p maxTurns s).1).currentFrame.psychState.stress =
      (applyAction p s.currentFrame
        (p.decide (buildContext p s.currentFrame
          (eventDescFor p s.currentFrame)))).2.2.1 := rfl

theorem executeTurn_status_eq (p : Providers) (maxTurns : Nat) (s : Session) :
    ((executeTurn p maxTurns s).1).status =
      nextStatus p maxTurns
        (applyAction p s.currentFrame
          (p.decide (buildContext p s.currentFrame
            (eventDescFor p s.currentFrame)))).1
        (s.currentFrame.turn + 1) := rfl

theorem nextStatus_ne_created (p : Providers) (maxTurns : Nat)
    (loc : GeoPoint) (n : Nat) :
    nextStatus p maxTurns loc n ≠ SessionStatus.created := by
  unfold nextStatus
  split
  · simp
  · split <;> simp

theorem nextStatus_ne_failed (p : Providers) (maxTurns : Nat)
    (loc : GeoPoint) (n : Nat) :
    nextStatus p maxTurns loc n ≠ SessionStatus.failed := by
  unfold nextStatus
  split
  · simp
  · split <;> simp

theorem createSession_ok (p : Providers) (id : String)
    (profile : AgentProfile) (loc : String) (stress : Int)
    (inv : List String) (now : Nat) (s : Session)
    (h : createSession p id profile loc stress inv now = Except.ok s) :
    0 ≤ stress ∧ stress ≤ 100 ∧ s.status = SessionStatus.created ∧
    s.currentFrame.turn = 0 ∧ s.history = [] ∧
    s.currentFrame.psychState.stress = stress := by
  unfold createSession at h
  split at h
  · cases h
  · next hv =>
    push_neg at hv
    cases hres : p.resolve loc with
    | none => rw [hres] at h; cases h
    | some g =>
      rw [hres] at h
      cases h
      exact ⟨hv.1, hv.2, rfl, rfl, rfl, rfl⟩

/-- C1: for every session reachable through the Registry's operations, the
length of the Decision history equals `current_frame.turn`; a session still
in `created` state (immediately after creation, turn 0) has an empty
Decision history. -/
theorem claim_C1 (p : Providers) (s : Session) (h : Reachable p s) :
    s.history.length = s.currentFrame.turn ∧
    (s.status = SessionStatus.created →
      s.currentFrame.turn = 0 ∧ s.history = []) := by
  induction h with
  | created id profile loc stress inv now s hok =>
    obtain ⟨-, -, -, hturn, hhist, -⟩ :=
      createSession_ok p id profile loc stress inv now s hok
    refine ⟨?_, fun _ => ⟨hturn, hhist⟩⟩
    rw [hturn, hhist]
    rfl
  | stepped maxTurns s hr hnc hnf ih =>
    refine ⟨?_, fun hc => ?_⟩
    · rw [executeTurn_hist_len, executeTurn_turn, ih.1]
    · rw [executeTurn_status_eq] at hc
      exact absurd hc (nextStatus_ne_created _ _ _ _)

/-- C1 witness: the invariant instantiated at a concrete reachable session
(created at Jiankang and advanced one turn under adversarial providers). -/
theorem claim_C1_witness :
    runningSession.history.length = runningSession.currentFrame.turn ∧
    (runningSession.status = SessionStatus.created →
      runningSession.currentFrame.turn = 0 ∧ runningSession.history = []) :=
  claim_C1 unsafeProviders runningSession
    (Reachable.stepped 5 yanSession
      (Reachable.created "sess-1" testProfile "Jiankang" 40 [] 0
        yanSession rfl)
      (by decide) (by decide))

/-- C2: for every session reachable through the Registry's operations —
for all provider behaviour, adversarial included — the stress field lies
within [0,100]. -/
theorem claim_C2 (p : Providers) (s : Session) (h : Reachable p s) :
    0 ≤ s.currentFrame.psychState.stress ∧
    s.currentFrame.psychState.stress ≤ 100 := by
  induction h with
  | created id profile loc stress inv now s hok =>
    obtain ⟨h0, h1, -, -, -, hs⟩ :=
      createSession_ok p id profile loc stress inv now s hok
    rw [hs]
    exact ⟨h0, h1⟩
  | stepped maxTurns s hr hnc hnf ih =>
    rw [executeTurn_stress_eq]
    exact applyAction_stress_bounds _ _ _

/-- C2 witness: the stress bounds instantiated at a concrete reachable
session created at Jiankang with starting stress 40. -/
theorem claim_C2_witness :
    0 ≤ yanSession.currentFrame.psychState.stress ∧
    yanSession.currentFrame.psychState.stress ≤ 100 :=
  claim_C2 unsafeProviders yanSession
    (Reachable.created "sess-1" testProfile "Jiankang" 40 [] 0
      yanSession rfl)

/-- C3: a session whose status is `completed` or `failed` rejects `start`
and `step` with `InvalidState`, leaving the Registry unchanged (no turn
executes), while `get` and `history` still succeed on it. -/
theorem claim_C3 (p : Providers) (maxTurns : Nat) (reg : Registry)
    (id : String) (s : Session) (hs : reg.lookup id = some s)
    (hterm : s.status = SessionStatus.completed ∨
      s.status = SessionStatus.failed) :
    registryStep p maxTurns reg id =
      (reg, Except.error ApiError.invalidState) ∧
    registryStart p reg id maxTurns =
      (reg, Except.error ApiError.invalidState) ∧
    registryGet reg id = Except.ok s ∧
    registryHistory reg id = Except.ok s.history := by
  rcases hterm with h | h <;>
    simp only [registryStep, registryStart, registryGet, registryHistory,
      hs, h] <;>
    exact ⟨trivial, trivial, trivial, trivial⟩

/-- The session of the §8 scenario after its one successful turn: it moved
to safe Jiangling, so it is `completed`. -/
def completedSession : Session :=
  (executeTurn scenarioProviders 10 yanSession).1

/-- A registry holding only the completed scenario session. -/
def doneRegistry : Registry := [("sess-1", completedSession)]

/-- C3 witness: the terminal-session behaviour instantiated at the
concrete completed scenario session. -/
theorem claim_C3_witness :
    registryStep scenarioProviders 10 doneRegistry "sess-1" =
      (doneRegistry, Except.error ApiError.invalidState) ∧
    registryStart scenarioProviders doneRegistry "sess-1" 10 =
      (doneRegistry, Except.error ApiError.invalidState) ∧
    registryGet doneRegistry "sess-1" = Except.ok completedSession ∧
    registryHistory doneRegistry "sess-1" =
      Except.ok completedSession.history :=
  claim_C3 scenarioProviders 10 doneRegistry "sess-1" completedSession rfl
    (Or.inl (by decide))

theorem nextStatus_running_iff (p : Providers) (maxTurns : Nat)
    (loc : GeoPoint) (k : Nat) :
    nextStatus p maxTurns loc (k + 1) = SessionStatus.running ↔
      ¬(p.danger loc < safeThreshold ∨ maxTurns ≤ k + 1) := by
  unfold nextStatus
  split_ifs with h1 h2
  · constructor
    · intro hc; cases hc
    · intro hcon; exact absurd (Or.inl h1.1) hcon
  · constructor
    · intro hc; cases hc
    · intro hcon; exact absurd (Or.inr h2) hcon
  · constructor
    · intro _ hcon
      rcases hcon with hd | hm
      · exact h1 ⟨hd, by omega⟩
      · exact h2 hm
    · intro _; rfl

/-- C4 counterexample: the claim as stated is false on the model.  The
reachable session `runningSession` (status `running`, turn 1, at dangerous
Jiankang) performs a `step` with turn budget 2 whose decided action is
`move_to:Nowhere` with `Nowhere` unresolvable: the turn completes with the
location unchanged and the action result failed, but the max turn count is
reached, so the status becomes `completed` — not `running`. -/
theorem claim_C4_counterexample :
    runningSession.status = SessionStatus.running ∧
    parseMoveTarget (unsafeProviders.decide
      (buildContext unsafeProviders runningSession.currentFrame
        (eventDescFor unsafeProviders runningSession.currentFrame))).action
      = some "Nowhere" ∧
    unsafeProviders.resolve "Nowhere" = none ∧
    ((executeTurn unsafeProviders 2 runningSession).1).currentFrame.turn =
      runningSession.currentFrame.turn + 1 ∧
    ((executeTurn unsafeProviders 2 runningSession).1).currentFrame.location
      = runningSession.currentFrame.location ∧
    (executeTurn unsafeProviders 2 runningSession).2.success = false ∧
    ((executeTurn unsafeProviders 2 runningSession).1).status ≠
      SessionStatus.running := by
  decide

/-- C4 (amended): for every running session, a turn whose decided action is
a move to an unresolvable place still completes: the turn counter advances,
the location is unchanged, the action result records failure and the
session never becomes `failed`; its status stays `running` exactly when the
turn's termination check does not complete the session (that is, unless the
current location's danger is below the safe threshold or the maximum turn
count is reached). -/
theorem claim_C4_amended (p : Providers) (maxTurns : Nat) (s : Session)
    (target : String) (_hrun : s.status = SessionStatus.running)
    (hact : parseMoveTarget (p.decide
      (buildContext p s.currentFrame (eventDescFor p s.currentFrame))).action
      = some target)
    (hres : p.resolve target = none) :
    ((executeTurn p maxTurns s).1).currentFrame.turn =
      s.currentFrame.turn + 1 ∧
    ((executeTurn p maxTurns s).1).currentFrame.location =
      s.currentFrame.location ∧
    (executeTurn p maxTurns s).2.success = false ∧
    ((executeTurn p maxTurns s).1).status ≠ SessionStatus.failed ∧
    (((executeTurn p maxTurns s).1).status = SessionStatus.running ↔
      ¬(p.danger s.currentFrame.location < safeThreshold ∨
        maxTurns ≤ s.currentFrame.turn + 1)) := by
  have ha : applyAction p s.currentFrame
      (p.decide (buildContext p s.currentFrame
        (eventDescFor p s.currentFrame))) =
      (s.currentFrame.location,
        s.currentFrame.timestamp + nonMoveClockIncrement,
        clampStress s.currentFrame.psychState.stress,
        ⟨(p.decide (buildContext p s.currentFrame
          (eventDescFor p s.currentFrame))).action, false⟩) := by
    unfold applyAction
    simp only [hact, hres]
  have hloc : ((executeTurn p maxTurns s).1).currentFrame.location =
      (applyAction p s.currentFrame
        (p.decide (buildContext p s.currentFrame
          (eventDescFor p s.currentFrame)))).1 := rfl
  have hsucc : (executeTurn p maxTurns s).2 =
      (applyAction p s.currentFrame
        (p.decide (buildContext p s.currentFrame
          (eventDescFor p s.currentFrame)))).2.2.2 := rfl
  refine ⟨executeTurn_turn p maxTurns s, ?_, ?_, ?_, ?_⟩
  · rw [hloc, ha]
  · rw [hsucc, ha]
  · rw [executeTurn_status_eq]
    exact nextStatus_ne_failed _ _ _ _
  · rw [executeTurn_status_eq, ha]
    exact nextStatus_running_iff p maxTurns s.currentFrame.location
      s.currentFrame.turn

/-- C4 witness: the amended statement instantiated at the concrete
reachable running session, with a turn budget (10) that is not yet reached
and a dangerous current location, so the status indeed stays `running`. -/
theorem claim_C4_witness :
    ((executeTurn unsafeProviders 10 runningSession).1).currentFrame.turn =
      runningSession.currentFrame.turn + 1 ∧
    ((executeTurn unsafeProviders 10 runningSession).1).currentFrame.location
      = runningSession.currentFrame.location ∧
    (executeTurn unsafeProviders 10 runningSession).2.success = false ∧
    ((executeTurn unsafeProviders 10 runningSession).1).status ≠
      SessionStatus.failed ∧
    (((executeTurn unsafeProviders 10 runningSession).1).status =
        SessionStatus.running ↔
      ¬(unsafeProviders.danger runningSession.currentFrame.location <
          safeThreshold ∨
        10 ≤ runningSession.currentFrame.turn + 1)) :=
  claim_C4_amended unsafeProviders 10 runningSession "Nowhere"
    (by decide) (by decide) (by decide)

theorem nextStatus_unsafe (p : Providers) (maxTurns : Nat) (loc : GeoPoint)
    (n : Nat) (h : ¬ p.danger loc < safeThreshold) :
    nextStatus p maxTurns loc n =
      if maxTurns ≤ n then SessionStatus.completed
      else SessionStatus.running := by
  unfold nextStatus
  rw [if_neg fun hc => h hc.1]

theorem runTurns_succ (p : Providers) (maxTurns n : Nat) (s : Session) :
    runTurns p maxTurns (n + 1) s =
      if s.status = SessionStatus.completed ∨
          s.status = SessionStatus.failed then s
      else runTurns p maxTurns n (executeTurn p maxTurns s).1 := rfl

theorem runTurns_unfold (p : Providers) (maxTurns n : Nat) (s : Session)
    (h1 : s.status ≠ SessionStatus.completed)
    (h2 : s.status ≠ SessionStatus.failed) :
    runTurns p maxTurns (n + 1) s =
      runTurns p maxTurns n (executeTurn p maxTurns s).1 := by
  rw [runTurns_succ, if_neg]
  rintro (h | h)
  · exact h1 h
  · exact h2 h

/-- C5: starting a run with `maxTurns = 3` from a freshly created session,
against a Knowledge Provider that never reports a location with danger
below the safe threshold (so no decided action can reach safety), the run
stops after exactly 3 turns with `current_frame.turn = 3` and status
`completed` — not `failed`. -/
theorem claim_C5 (p : Providers) (id : String) (profile : AgentProfile)
    (loc : String) (stress : Int) (inv : List String) (now : Nat)
    (s : Session)
    (hc : createSession p id profile loc stress inv now = Except.ok s)
    (hdanger : ∀ g, ¬ p.danger g < safeThreshold) :
    (runTurns p 3 3 s).currentFrame.turn = 3 ∧
    (runTurns p 3 3 s).status = SessionStatus.completed := by
  obtain ⟨-, -, hstatus, hturn, -, -⟩ :=
    createSession_ok p id profile loc stress inv now s hc
  have hst1 : ((executeTurn p 3 s).1).status = SessionStatus.running := by
    rw [executeTurn_status_eq, nextStatus_unsafe p 3 _ _ (hdanger _), hturn,
      if_neg (by omega)]
  have ht1 : ((executeTurn p 3 s).1).currentFrame.turn = 1 := by
    rw [executeTurn_turn, hturn]
  have hst2 : ((executeTurn p 3 (executeTurn p 3 s).1).1).status =
      SessionStatus.running := by
    rw [executeTurn_status_eq, nextStatus_unsafe p 3 _ _ (hdanger _), ht1,
      if_neg (by omega)]
  have ht2 : ((executeTurn p 3 (executeTurn p 3 s).1).1).currentFrame.turn
      = 2 := by
    rw [executeTurn_turn, ht1]
  have hst3 : ((executeTurn p 3
      (executeTurn p 3 (executeTurn p 3 s).1).1).1).status =
      SessionStatus.completed := by
    rw [executeTurn_status_eq, nextStatus_unsafe p 3 _ _ (hdanger _), ht2,
      if_pos (by omega)]
  have ht3 : ((executeTurn p 3
      (executeTurn p 3 (executeTurn p 3 s).1).1).1).currentFrame.turn
      = 3 := by
    rw [executeTurn_turn, ht2]
  have hrun : runTurns p 3 3 s =
      (executeTurn p 3 (executeTurn p 3 (executeTurn p 3 s).1).1).1 := by
    rw [runTurns_unfold p 3 2 s (by rw [hstatus]; decide)
        (by rw [hstatus]; decide),
      runTurns_unfold p 3 1 _ (by rw [hst1]; decide)
        (by rw [hst1]; decide),
      runTurns_unfold p 3 0 _ (by rw [hst2]; decide)
        (by rw [hst2]; decide)]
    rfl
  rw [hrun]
  exact ⟨ht3, hst3⟩

/-- C5 witness: the max-turns completion instantiated at the concrete
session created at Jiankang, under the adversarial providers whose danger
report is 90 everywhere. -/
theorem claim_C5_witness :
    (runTurns unsafeProviders 3 3 yanSession).currentFrame.turn = 3 ∧
    (runTurns unsafeProviders 3 3 yanSession).status =
      SessionStatus.completed :=
  claim_C5 unsafeProviders "sess-1" testProfile "Jiankang" 40 [] 0
    yanSession rfl (fun g => by norm_num [unsafeProviders, safeThreshold])

/-- C6: `create` rejects a starting stress outside [0,100] with
`InvalidArgument`, and an in-range stress with an unresolvable starting
location with `UnknownLocation`; in both cases the error is returned
synchronously with the Registry's session map unchanged — no partial
session exists. -/
theorem claim_C6 (p : Providers) (reg : Registry) (id : String)
    (profile : AgentProfile) (loc : String) (stress : Int)
    (inv : List String) (now : Nat) :
    ((stress < 0 ∨ 100 < stress) →
      registryCreate p reg id profile loc stress inv now =
        (reg, Except.error ApiError.invalidArgument)) ∧
    (0 ≤ stress → stress ≤ 100 → p.resolve loc = none →
      registryCreate p reg id profile loc stress inv now =
        (reg, Except.error ApiError.unknownLocation)) := by
  constructor
  · intro hbad
    unfold registryCreate createSession
    rw [if_pos hbad]
  · intro h0 h1 hres
    unfold registryCreate createSession
    rw [if_neg (by omega)]
    simp only [hres]

/-- C6 witness: the rejection behaviour instantiated at concrete inputs —
stress 150 (out of range) and the unresolvable starting location
`Nowhere`. -/
theorem claim_C6_witness :
    registryCreate unsafeProviders [] "sess-2" testProfile "Jiankang" 150
        [] 0 = ([], Except.error ApiError.invalidArgument) ∧
    registryCreate unsafeProviders [] "sess-2" testProfile "Nowhere" 40
        [] 0 = ([], Except.error ApiError.unknownLocation) :=
  ⟨(claim_C6 unsafeProviders [] "sess-2" testProfile "Jiankang" 150
      [] 0).1 (by norm_num),
    (claim_C6 unsafeProviders [] "sess-2" testProfile "Nowhere" 40
      [] 0).2 (by norm_num) (by norm_num) (by decide)⟩

theorem applyBroadcastOp_emitCount_le (st : BroadcasterState)
    (op : BroadcastOp) :
    st.emitCount ≤ (applyBroadcastOp st op).emitCount := by
  cases op <;> simp [applyBroadcastOp]

theorem runBroadcast_append (st : BroadcasterState)
    (l1 l2 : List BroadcastOp) :
    runBroadcast st (l1 ++ l2) = runBroadcast (runBroadcast st l1) l2 := by
  simp [runBroadcast, List.foldl_append]

theorem runBroadcast_no_deliveries (o : String) (ops : List BroadcastOp)
    (hops : BroadcastOp.subscribe o ∉ ops) (st : BroadcasterState)
    (hsub : o ∉ st.subscribers)
    (hdel : ∀ i e, (o, i, e) ∉ st.deliveries) :
    o ∉ (runBroadcast st ops).subscribers ∧
    ∀ i e, (o, i, e) ∉ (runBroadcast st ops).deliveries := by
  induction ops generalizing st with
  | nil => exact ⟨hsub, hdel⟩
  | cons op rest ih =>
    have hop : op ≠ BroadcastOp.subscribe o := by
      intro he
      exact hops (he ▸ List.mem_cons_self op rest)
    have hrest : BroadcastOp.subscribe o ∉ rest :=
      fun hm => hops (List.mem_cons_of_mem op hm)
    refine ih hrest (applyBroadcastOp st op) ?_ ?_
    · cases op with
      | subscribe o' =>
        simp only [applyBroadcastOp, List.mem_cons]
        rintro (h | h)
        · exact hop (by rw [h])
        · exact hsub h
      | unsubscribe o' =>
        simp only [applyBroadcastOp]
        intro h
        exact hsub (List.mem_of_mem_filter h)
      | emit e => exact hsub
    · cases op with
      | subscribe o' => exact hdel
      | unsubscribe o' => exact hdel
      | emit e =>
        intro i ev
        simp only [applyBroadcastOp, List.mem_append, List.mem_map]
        rintro (h | ⟨o', ho', heq⟩)
        · exact hdel i ev h
        · exact hsub (by rw [(Prod.mk.injEq _ _ _ _).mp heq |>.1] at ho'; exact ho')

theorem runBroadcast_deliveries_ge (o' : String) (i : Nat) (e : String)
    (ops : List BroadcastOp) (st : BroadcasterState)
    (h : (o', i, e) ∈ (runBroadcast st ops).deliveries) :
    (o', i, e) ∈ st.deliveries ∨ st.emitCount < i := by
  induction ops generalizing st with
  | nil => exact Or.inl h
  | cons op rest ih =>
    rcases ih (applyBroadcastOp st op) h with hmem | hgt
    · cases op with
      | subscribe o'' => exact Or.inl hmem
      | unsubscribe o'' => exact Or.inl hmem
      | emit ev =>
        simp only [applyBroadcastOp, List.mem_append, List.mem_map]
          at hmem
        rcases hmem with hmem | ⟨o'', ho'', heq⟩
        · exact Or.inl hmem
        · right
          have : i = st.emitCount + 1 :=
            ((Prod.mk.injEq _ _ _ _).mp
              ((Prod.mk.injEq _ _ _ _).mp heq).2).1.symm
          omega
    · exact Or.inr
        (lt_of_le_of_lt (applyBroadcastOp_emitCount_le st op) hgt)

/-- C7: an observer that subscribes only after the Broadcaster has already
emitted N events (numbered 1..N) never has any of those events delivered
to it — every delivery to that observer carries an event number strictly
greater than the emit count at subscription time, i.e. only events emitted
from the moment of subscription onward. -/
theorem claim_C7 (o : String) (pre post : List BroadcastOp)
    (hpre : BroadcastOp.subscribe o ∉ pre) :
    ∀ i e,
      (o, i, e) ∈ (runBroadcast freshChannel
        (pre ++ BroadcastOp.subscribe o :: post)).deliveries →
      (runBroadcast freshChannel pre).emitCount < i := by
  intro i e hmem
  rw [runBroadcast_append] at hmem
  rcases runBroadcast_deliveries_ge o i e _ _ hmem with hold | hlt
  · exact absurd hold
      ((runBroadcast_no_deliveries o pre hpre freshChannel
        (by simp [freshChannel]) (by simp [freshChannel])).2 i e)
  · exact hlt

/-- C7 witness: the no-retroactive-delivery property instantiated on a
concrete trace — two events emitted before `alice` subscribes, one after:
the one event actually delivered to `alice` is event 3, whose number is
greater than the emit count (2) at subscription time. -/
theorem claim_C7_witness :
    (runBroadcast freshChannel
      [BroadcastOp.emit "e1", BroadcastOp.emit "e2"]).emitCount < 3 :=
  claim_C7 "alice" [BroadcastOp.emit "e1", BroadcastOp.emit "e2"]
    [BroadcastOp.emit "e3"] (by decide) 3 "e3" (by decide)

/-- C8: in the useWebSocket hook, an incoming message whose body parses as
JSON is appended to the end of the `events` list, leaving all previously
received events unchanged and in arrival order; a message whose parse
throws leaves the `events` list exactly unchanged. -/
theorem claim_C8 (prev : List Frontend.SimulationEvent)
    (parsed : Option Frontend.SimulationEvent) :
    (∀ d, parsed = some d →
      Frontend.onMessage prev parsed = prev ++ [d]) ∧
    (parsed = none → Frontend.onMessage prev parsed = prev) := by
  constructor
  · intro d hd
    rw [hd]
    rfl
  · intro hn
    rw [hn]
    rfl

/-- C8 witness: both branches instantiated — a parsed event is appended to
an existing list, and a failed parse leaves the list unchanged. -/
theorem claim_C8_witness :
    Frontend.onMessage [Frontend.sampleEvent] (some Frontend.sampleEvent) =
      [Frontend.sampleEvent] ++ [Frontend.sampleEvent] ∧
    Frontend.onMessage [Frontend.sampleEvent] none =
      [Frontend.sampleEvent] :=
  ⟨(claim_C8 [Frontend.sampleEvent] (some Frontend.sampleEvent)).1
      Frontend.sampleEvent rfl,
    (claim_C8 [Frontend.sampleEvent] none).2 rfl⟩

/-- C9: every operation of the useSimulation hook resets `loading` to
false when it finishes, regardless of success or failure; on a non-ok HTTP
response or a thrown exception it stores the failure message in `error`
and rethrows (ends in `Except.error`) rather than returning a value. -/
theorem claim_C9 :
    Frontend.opContract "Failed to create simulation: "
      Frontend.createSimulation ∧
    Frontend.opContract "Failed to get simulation state: "
      Frontend.getSimulationState ∧
    (∀ α : Type, Frontend.opContract (α := α)
      "Failed to start simulation: " Frontend.startSimulation) ∧
    Frontend.opContract "Failed to step simulation: "
      Frontend.stepSimulation ∧
    Frontend.opContract "Failed to get history: " Frontend.getHistory ∧
    Frontend.opContract "Failed to list simulations: "
      Frontend.listSimulations := by
  refine ⟨?_, ?_, fun α => ?_, ?_, ?_, ?_⟩ <;>
  · intro st outcome
    refine ⟨?_, ?_, ?_⟩
    · cases outcome <;> rfl
    · intro stx h
      subst h
      exact ⟨rfl, rfl⟩
    · intro e h
      subst h
      exact ⟨rfl, rfl⟩

/-- C9 witness: the contract instantiated for `createSimulation` on a
concrete non-ok response (`loading` reset, error message stored, the error
rethrown). -/
theorem claim_C9_witness :
    (Frontend.createSimulation Frontend.initialHookState
      (Frontend.FetchOutcome.notOk "Internal Server Error")).1.loading =
      false ∧
    (Frontend.createSimulation Frontend.initialHookState
      (Frontend.FetchOutcome.notOk "Internal Server Error")).1.error =
      some ("Failed to create simulation: " ++ "Internal Server Error") ∧
    (Frontend.createSimulation Frontend.initialHookState
      (Frontend.FetchOutcome.notOk "Internal Server Error")).2 =
      Except.error (Frontend.JsError.errorObj
        ("Failed to create simulation: " ++ "Internal Server Error")) :=
  ⟨(claim_C9.1 Frontend.initialHookState
      (Frontend.FetchOutcome.notOk "Internal Server Error")).1,
    ((claim_C9.1 Frontend.initialHookState
      (Frontend.FetchOutcome.notOk "Internal Server Error")).2.1
        "Internal Server Error" rfl).1,
    ((claim_C9.1 Frontend.initialHookState
      (Frontend.FetchOutcome.notOk "Internal Server Error")).2.1
        "Internal Server Error" rfl).2⟩

/-- C10: when startSimulation is called without an explicit `maxTurns`
argument, the request it sends is a POST to
`/simulations/{id}/start` whose body carries `max_turns = 10` (the
TypeScript default parameter). -/
theorem claim_C10 (simulationId : String) :
    (Frontend.startSimulationRequest simulationId none).max_turns = 10 ∧
    (Frontend.startSimulationRequest simulationId none).method = "POST" ∧
    (Frontend.startSimulationRequest simulationId none).url =
      Frontend.API_BASE_URL ++ "/simulations/" ++ simulationId ++ "/start"
    := ⟨rfl, rfl, rfl⟩

